import Mathlib

/-!
Shallow embedding of the Caddis price-list extraction script
(src/extract_and_upload.py): the article fetcher, the price fetcher with its
per-record tax-inclusive price computation, and the reconciliation routine
DataProcessor.combine_data, together with theorems settling the spec claims.

Python floats are modelled as rationals; Python None / strings / numbers in
spreadsheet cells are modelled by the Cell type; dictionaries built by
insertion are modelled by fold-based lookup functions (later insertion wins,
as in Python).
-/

namespace Caddis

/-- A spreadsheet cell value as produced by combine_data: a string, a number,
or Python None (which leaks through dict.get when a key holds None). -/
inductive Cell where
  | str (s : String)
  | num (q : ℚ)
  | pynone
deriving DecidableEq, Repr

/-- A raw article record as it arrives from the /v1/articulos endpoint body.
Fields are Option-valued: none models an absent key (dict.get returns None,
which downstream defaults turn into the stated defaults). -/
structure RawArticle where
  id : Option String
  sku : Option String
  nombre : Option String
  tipo : Option String
  marca : Option String
  grupo : Option String
  estado : Option String
deriving DecidableEq, Repr

/-- The article dict built by get_articles (keys id, sku, nombre, tipo,
marca, grupo, always present, values possibly None). -/
structure Article where
  id : Option String
  sku : Option String
  nombre : Option String
  tipo : Option String
  marca : Option String
  grupo : Option String
deriving DecidableEq, Repr

/-- str.upper(): upper-case every character (the status values at hand are
ASCII). -/
def pyUpper (s : String) : String :=
  String.mk (s.data.map Char.toUpper)

/-- str(article.get('estado', '')).upper() == 'INACTIVO' from get_articles. -/
def isInactive (r : RawArticle) : Bool :=
  pyUpper (r.estado.getD "") == "INACTIVO"

/-- The field projection performed on each kept record in get_articles. -/
def toArticle (r : RawArticle) : Article :=
  ⟨r.id, r.sku, r.nombre, r.tipo, r.marca, r.grupo⟩

/-- The per-page body processing of get_articles: drop INACTIVO records,
project the rest to the Article shape. -/
def pageExtract (items : List RawArticle) : List Article :=
  (items.filter (fun r => !(isInactive r))).map toArticle

/-- One page response from the upstream API: HTTP 404; a RequestException
that carries an HTTP response with the given status (e.g. raise_for_status
on a 5xx); a RequestException whose response attribute is None (connection
failure, timeout), on which the except handlers' e.response.status_code
itself raises an AttributeError; or a 2xx with the extracted record batch. -/
inductive PageResp (α : Type) where
  | notFound
  | errResp (status : ℕ)
  | errNoResp
  | ok (items : List α)
deriving DecidableEq, Repr

/-- get_articles over the stream of page responses (pages 1, 2, 3, ...).
A 404 page or an empty batch stops the loop and returns what was collected;
a request error carrying a 404 response also breaks; any other request error
aborts the run (a non-404 response is re-raised at line 161; a missing
response makes line 156 raise AttributeError), modelled by Except.error,
which discards the partial result as a Python raise does. -/
def get_articles : List (PageResp RawArticle) → Except Unit (List Article)
  | [] => Except.ok []
  | PageResp.notFound :: _ => Except.ok []
  | PageResp.errResp s :: _ => if s = 404 then Except.ok [] else Except.error ()
  | PageResp.errNoResp :: _ => Except.error ()
  | PageResp.ok items :: rest =>
    if items = [] then Except.ok []
    else
      match get_articles rest with
      | Except.ok more => Except.ok (pageExtract items ++ more)
      | Except.error e => Except.error e

/-- A raw field value in a price record: a float-convertible value (number or
numeric string) or a value on which float() raises (None, non-numeric
string). -/
inductive RawVal where
  | num (q : ℚ)
  | bad
deriving DecidableEq, Repr

/-- A raw price record from the /v1/articulos/precios body; none models an
absent key. -/
structure RawPrice where
  sku : Option String
  precio_unitario : Option RawVal
  iva_tasa : Option RawVal
deriving DecidableEq, Repr

/-- float(d.get(key, 0)): an absent key defaults to 0; a present
non-convertible value makes float() raise (modelled as none). -/
def floatD0 : Option RawVal → Option ℚ
  | none => some 0
  | some (RawVal.num q) => some q
  | some RawVal.bad => none

/-- Python round() on a rational: round half to even (banker's rounding),
returning an integer. -/
def pyRound (q : ℚ) : ℤ :=
  let f := ⌊q⌋
  let r := q - (f : ℚ)
  if r < 1 / 2 then f
  else if 1 / 2 < r then f + 1
  else if f % 2 = 0 then f else f + 1

/-- round(x, 2). -/
def round2 (q : ℚ) : ℚ := (pyRound (q * 100) : ℚ) / 100

/-- The tax-inclusive price: round(precio_base * (1 + iva_rate), 2), as
computed inline in get_prices. -/
def computeInclusivePrice (b t : ℚ) : ℚ := round2 (b * (1 + t))

/-- A price entry as appended to the prices list by get_prices. -/
structure PriceEntry where
  sku : Option String
  lista_id : ℤ
  iva_tasa : ℚ
  precio_unitario : ℚ
deriving DecidableEq, Repr

/-- The body of the per-record loop of get_prices: convert base price and tax
rate with float() (defaulting absent keys to 0), skipping the record when
either conversion fails, else emit the entry with the tax-inclusive price. -/
def convertRecord (lista_id : ℤ) (r : RawPrice) : Option PriceEntry :=
  match floatD0 r.precio_unitario, floatD0 r.iva_tasa with
  | some b, some t => some ⟨r.sku, lista_id, t, computeInclusivePrice b t⟩
  | _, _ => none

/-- The per-page processing of get_prices: each record is converted
independently; failed conversions are skipped. -/
def processPage (lista_id : ℤ) (items : List RawPrice) : List PriceEntry :=
  items.filterMap (convertRecord lista_id)

/-- The inner page loop of get_prices for one price list. A 404 page or an
empty batch stops the loop; a request error carrying an HTTP response (404
or not) breaks, keeping the entries collected so far; but a request error
with no response makes the handler at line 236 evaluate
e.response.status_code on None, raising an uncaught AttributeError that
propagates out of get_prices (Except.error). -/
def get_prices_list (lista_id : ℤ) :
    List (PageResp RawPrice) → Except Unit (List PriceEntry)
  | [] => Except.ok []
  | PageResp.notFound :: _ => Except.ok []
  | PageResp.errResp _ :: _ => Except.ok []
  | PageResp.errNoResp :: _ => Except.error ()
  | PageResp.ok items :: rest =>
    if items = [] then Except.ok []
    else
      match get_prices_list lista_id rest with
      | Except.ok more => Except.ok (processPage lista_id items ++ more)
      | Except.error e => Except.error e

/-- get_prices: outer loop over the configured price-list ids, concatenating
each list's entries. A list whose pages end in an error that carries a
response contributes what it collected and the loop moves on; an
AttributeError escaping the inner loop aborts the whole fetch, losing every
entry. -/
def get_prices (lists : List ℤ) (server : ℤ → List (PageResp RawPrice)) :
    Except Unit (List PriceEntry) :=
  match lists with
  | [] => Except.ok []
  | l :: rest =>
    match get_prices_list l (server l) with
    | Except.error e => Except.error e
    | Except.ok entries =>
      match get_prices rest server with
      | Except.error e => Except.error e
      | Except.ok more => Except.ok (entries ++ more)

/-- article.get('sku') truthiness: a present, non-empty sku string. -/
def truthySku (a : Article) : Option String :=
  match a.sku with
  | some t => if t = "" then none else some t
  | none => none

/-- The dict comprehension building articles_lookup in combine_data: for a
duplicate sku the later article overwrites the earlier one. -/
def articles_lookup (articles : List Article) (s : String) : Option Article :=
  articles.foldl (fun acc a => if truthySku a = some s then some a else acc) none

/-- The key of a price entry in prices_lookup, none when `if sku and
lista_id` rejects it (missing or empty sku, or list id 0). -/
def priceKey (p : PriceEntry) : Option (String × ℤ) :=
  match p.sku with
  | some t => if t = "" ∨ p.lista_id = 0 then none else some (t, p.lista_id)
  | none => none

/-- The two-level prices_lookup of combine_data: the last entry stored for a
(sku, lista_id) pair wins, as with repeated Python dict assignment. -/
def prices_lookup (prices : List PriceEntry) (s : String) (l : ℤ) :
    Option PriceEntry :=
  prices.foldl (fun acc p => if priceKey p = some (s, l) then some p else acc) none

/-- The fixed header row of combine_data. -/
def header : List Cell :=
  [Cell.str "Código", Cell.str "Tipo", Cell.str "Artículo", Cell.str "Grupo",
   Cell.str "Marca", Cell.str "IVA",
   Cell.str "Minorista Ars", Cell.str "Dealer Ars", Cell.str "Dealer 1 Ars",
   Cell.str "Dealer 30d Ars", Cell.str "Nautica Dealer Usd",
   Cell.str "Dealer 60d Ars", Cell.str "Mino Ml Premium Ars",
   Cell.str "Sub Distribuidor Usd", Cell.str "Dealer 55mkup Ars",
   Cell.str "Dealer 50mkup Ars", Cell.str "Anterior Mino Ars",
   Cell.str "Mixta Ars", Cell.str "Grouping 70mkup Ars",
   Cell.str "Dealer Cencosud Ars", Cell.str "Nautica Dealer 1 Usd",
   Cell.str "Nautica Dealer Ars", Cell.str "Nautica Dealer 1 Ars",
   Cell.str "Fob Standard Usd", Cell.str "Dealer Golf Ars",
   Cell.str "Gpsmundo Srl", Cell.str "Dealer Meli Ars",
   Cell.str "Dealer 5g Ars", Cell.str "Fob Supplier Llc",
   Cell.str "Dealer Diggit Ars"]

/-- The fixed order of price-list ids used for the price columns. -/
def listIds : List ℤ :=
  [1, 2, 3, 5, 7, 8, 9, 10, 11, 12, 13, 14, 15, 16, 17, 18, 19, 20, 21, 22,
   23, 24, 25, 33]

/-- article.get(field, '') on the dict returned by articles_lookup.get(sku,
dict()): empty string when the article is absent, the stored value (possibly
None) when present. -/
def attrCell (article : Option Article) (f : Article → Option String) : Cell :=
  match article with
  | none => Cell.str ""
  | some a =>
    match f a with
    | some v => Cell.str v
    | none => Cell.pynone

/-- str() of the float z / 10 as Python prints it (one decimal digit). -/
def pyStrTenth (z : ℤ) : String :=
  (if z < 0 then "-" else "") ++ toString (z.natAbs / 10) ++ "." ++
    toString (z.natAbs % 10)

/-- s.replace('.', ',') for a one-character pattern: every '.' becomes ','. -/
def replaceDotComma (s : String) : String :=
  String.mk (s.data.map (fun c => if c = '.' then ',' else c))

/-- str(round(float(iva_rate) * 100, 1)).replace('.', ',') from
combine_data. -/
def ivaDisplay (t : ℚ) : String :=
  replaceDotComma (pyStrTenth (pyRound (t * 100 * 10)))

/-- One data row of combine_data for a given sku. -/
def mkRow (articles : List Article) (prices : List PriceEntry) (s : String) :
    List Cell :=
  let article := articles_lookup articles s
  let ivaCell : Cell :=
    match prices_lookup prices s 1 with
    | some p => Cell.str (ivaDisplay p.iva_tasa)
    | none => Cell.str ""
  [Cell.str s, attrCell article Article.tipo, attrCell article Article.nombre,
   attrCell article Article.grupo, attrCell article Article.marca, ivaCell] ++
    listIds.map (fun l =>
      match prices_lookup prices s l with
      | some p => Cell.num (round2 p.precio_unitario)
      | none => Cell.str "")

/-- The distinct truthy skus of the articles, the key set of
articles_lookup. -/
def articles_keys (articles : List Article) : List String :=
  (articles.filterMap truthySku).dedup

/-- sorted(all_skus): the distinct article skus in ascending lexicographic
order. -/
def sortedSkus (articles : List Article) : List String :=
  List.insertionSort (fun s t : String => s ≤ t) (articles_keys articles)

/-- DataProcessor.combine_data: the header row followed by one row per
active-article sku, in sorted sku order. -/
def combine_data (articles : List Article) (prices : List PriceEntry) :
    List (List Cell) :=
  header :: (sortedSkus articles).map (mkRow articles prices)

/-- The key cells of the data rows of a table (first cell of each row after
the header). -/
def rowKeys (table : List (List Cell)) : List Cell :=
  table.tail.map (fun r => r.headD (Cell.str ""))

/-- The key of one row, read back as a string. -/
def rowKeyStr (r : List Cell) : String :=
  match r.headD (Cell.str "") with
  | Cell.str s => s
  | _ => ""

/-- The first cell of a data row of combine_data is its sku. -/
lemma mkRow_headD (articles : List Article) (prices : List PriceEntry)
    (s : String) : (mkRow articles prices s).headD (Cell.str "") = Cell.str s :=
  rfl

/-- The key cells of combine_data are the sorted skus, as strings. -/
lemma rowKeys_combine (articles : List Article) (prices : List PriceEntry) :
    rowKeys (combine_data articles prices) = (sortedSkus articles).map Cell.str := by
  unfold rowKeys combine_data
  rw [List.tail_cons, List.map_map]
  exact List.map_congr_left fun s _ => mkRow_headD articles prices s

/-- truthySku characterised. -/
lemma truthySku_eq_some {a : Article} {s : String} :
    truthySku a = some s ↔ a.sku = some s ∧ s ≠ "" := by
  unfold truthySku
  cases h : a.sku with
  | none => simp
  | some t =>
    by_cases ht : t = "" <;> simp [ht] <;> aesop

/-- Membership in the sorted sku list of combine_data. -/
lemma mem_sortedSkus {articles : List Article} {s : String} :
    s ∈ sortedSkus articles ↔ ∃ a ∈ articles, a.sku = some s ∧ s ≠ "" := by
  unfold sortedSkus articles_keys
  rw [(List.perm_insertionSort _ _).mem_iff, List.mem_dedup, List.mem_filterMap]
  constructor
  · rintro ⟨a, ha, hk⟩
    exact ⟨a, ha, truthySku_eq_some.mp hk⟩
  · rintro ⟨a, ha, hk⟩
    exact ⟨a, ha, truthySku_eq_some.mpr hk⟩

/-- The sorted sku list has no duplicates. -/
lemma nodup_sortedSkus (articles : List Article) : (sortedSkus articles).Nodup :=
  ((List.perm_insertionSort _ _).nodup_iff).mpr (List.nodup_dedup _)

/-- The sorted sku list is strictly sorted. -/
lemma pairwise_lt_sortedSkus (articles : List Article) :
    List.Pairwise (fun s t : String => s < t) (sortedSkus articles) :=
  List.Sorted.lt_of_le (List.sorted_insertionSort _ _) (nodup_sortedSkus articles)

/-- Every article returned by get_articles stems from a non-inactive raw
record of some successfully fetched page. -/
lemma get_articles_mem :
    ∀ (stream : List (PageResp RawArticle)) (arts : List Article),
      get_articles stream = Except.ok arts → ∀ a ∈ arts,
      ∃ items raw, PageResp.ok items ∈ stream ∧ raw ∈ items ∧
        isInactive raw = false ∧ a = toArticle raw := by
  intro stream
  induction stream with
  | nil =>
    intro arts h a ha
    simp only [get_articles, Except.ok.injEq] at h
    subst h
    simp at ha
  | cons p rest ih =>
    intro arts h a ha
    cases p with
    | notFound =>
      simp only [get_articles, Except.ok.injEq] at h
      subst h
      simp at ha
    | errResp s =>
      by_cases h404 : s = 404
      · have h2 : ([] : List Article) = arts := by simpa [get_articles, h404] using h
        subst h2
        simp at ha
      · simp [get_articles, h404] at h
    | errNoResp => simp [get_articles] at h
    | ok items =>
      by_cases hi : items = []
      · subst hi
        have h2 : ([] : List Article) = arts := by simpa [get_articles] using h
        subst h2
        simp at ha
      · simp only [get_articles, if_neg hi] at h
        cases hrest : get_articles rest with
        | error e => rw [hrest] at h; cases h
        | ok more =>
          rw [hrest] at h
          injection h with h
          subst h
          rcases List.mem_append.mp ha with hleft | hright
          · unfold pageExtract at hleft
            rcases List.mem_map.mp hleft with ⟨raw, hraw, hra⟩
            rcases List.mem_filter.mp hraw with ⟨hrawmem, hact⟩
            refine ⟨items, raw, List.mem_cons_self _ _, hrawmem, ?_, hra.symm⟩
            simpa using hact
          · rcases ih more hrest a hright with ⟨its, raw, hin, hr⟩
            exact ⟨its, raw, List.mem_cons_of_mem _ hin, hr⟩

/-- A page whose fetch fails fatally, reached before any exhaustion signal,
makes get_articles raise. -/
lemma get_articles_fatal (e : PageResp RawArticle)
    (he : ∀ rest, get_articles (e :: rest) = Except.error ()) :
    ∀ (pre rest : List (PageResp RawArticle)),
      (∀ p ∈ pre, ∃ items, p = PageResp.ok items ∧ items ≠ []) →
      get_articles (pre ++ e :: rest) = Except.error () := by
  intro pre
  induction pre with
  | nil => intro rest _; exact he rest
  | cons p pre ih =>
    intro rest hpre
    rcases hpre p (List.mem_cons_self _ _) with ⟨items, hp, hne⟩
    subst hp
    have htail := ih rest fun q hq => hpre q (List.mem_cons_of_mem _ hq)
    simp only [List.cons_append, get_articles, if_neg hne, List.append_eq, htail]

/-- A request error that still carries an HTTP response just truncates that
price list's pages. -/
lemma get_prices_list_errResp (l : ℤ) (s : ℕ) :
    ∀ (pages more : List (PageResp RawPrice)),
      get_prices_list l (pages ++ PageResp.errResp s :: more) =
        get_prices_list l pages := by
  intro pages
  induction pages with
  | nil => intro more; rfl
  | cons p pages ih =>
    intro more
    cases p with
    | notFound => rfl
    | errResp t => rfl
    | errNoResp => rfl
    | ok items =>
      by_cases hi : items = []
      · subst hi; rfl
      · simp only [List.cons_append, get_prices_list, if_neg hi, List.append_eq, ih]

/-- A request error carrying no response, reached before any exhaustion
signal, raises AttributeError out of the price page loop. -/
lemma get_prices_list_fatal (l : ℤ) :
    ∀ (pages more : List (PageResp RawPrice)),
      (∀ p ∈ pages, ∃ items, p = PageResp.ok items ∧ items ≠ []) →
      get_prices_list l (pages ++ PageResp.errNoResp :: more) =
        Except.error () := by
  intro pages
  induction pages with
  | nil => intro more _; rfl
  | cons p pages ih =>
    intro more hpre
    rcases hpre p (List.mem_cons_self _ _) with ⟨items, hp, hne⟩
    subst hp
    have htail := ih more fun q hq => hpre q (List.mem_cons_of_mem _ hq)
    simp only [List.cons_append, get_prices_list, if_neg hne, List.append_eq, htail]

/-- A record whose float conversion fails is dropped from the page, the rest
of the page being processed unchanged. -/
lemma processPage_skip (l : ℤ) (xs ys : List RawPrice) (r : RawPrice)
    (h : convertRecord l r = none) :
    processPage l (xs ++ r :: ys) = processPage l xs ++ processPage l ys := by
  unfold processPage
  rw [List.filterMap_append, List.filterMap_cons, h]

/-- C1: the data rows of combine_data are keyed exactly by the skus of the
article mapping: their key cells are the sorted distinct truthy article skus
(so every active article sku yields exactly one row and a sku appearing only
in price entries yields none), and an empty article list gives the header
row alone. -/
theorem claim1_row_key_set (articles : List Article) (prices : List PriceEntry) :
    rowKeys (combine_data articles prices) = (sortedSkus articles).map Cell.str ∧
    (∀ s : String,
      s ∈ sortedSkus articles ↔ ∃ a ∈ articles, a.sku = some s ∧ s ≠ "") ∧
    (sortedSkus articles).Nodup ∧
    combine_data [] prices = [header] :=
  ⟨rowKeys_combine articles prices, fun _ => mem_sortedSkus,
    nodup_sortedSkus articles, rfl⟩

/-- C2: a record whose estado equals INACTIVO up to case is excluded by
get_articles, so when every raw record bearing a sku is inactive, no row for
that sku appears in the combined table, price entries for it
notwithstanding. -/
theorem claim2_inactive_excluded (stream : List (PageResp RawArticle))
    (arts : List Article) (prices : List PriceEntry) (s : String)
    (hall : ∀ items raw, PageResp.ok items ∈ stream → raw ∈ items →
      raw.sku = some s → isInactive raw = true)
    (hok : get_articles stream = Except.ok arts) :
    Cell.str s ∉ rowKeys (combine_data arts prices) := by
  intro hmem
  rw [rowKeys_combine] at hmem
  rcases List.mem_map.mp hmem with ⟨t, ht, hts⟩
  have hts2 : t = s := by simpa using hts
  subst hts2
  rcases mem_sortedSkus.mp ht with ⟨a, ha, hsku, _⟩
  rcases get_articles_mem stream arts hok a ha with ⟨items, raw, hin, hraw, hact, hart⟩
  have : raw.sku = some t := by rw [hart] at hsku; exact hsku
  have := hall items raw hin hraw this
  rw [hact] at this
  cases this

/-- C3 counterexample: with two articles sharing sku A, the article mapping
of combine_data holds the second one, not the first. -/
theorem claim3_counterexample :
    articles_lookup
      [⟨none, some "A", some "X", none, none, none⟩,
       ⟨none, some "A", some "Y", none, none, none⟩] "A" =
      some ⟨none, some "A", some "Y", none, none, none⟩ ∧
    (⟨none, some "A", some "Y", none, none, none⟩ : Article) ≠
      ⟨none, some "A", some "X", none, none, none⟩ := by
  constructor
  · rfl
  · decide

/-- C3 amended: for duplicate skus the article mapping keeps the last
occurrence, since later dict-comprehension insertions overwrite earlier
ones. -/
theorem claim3_last_occurrence_wins (articles : List Article) (a : Article)
    (s : String) :
    articles_lookup (articles ++ [a]) s =
      if truthySku a = some s then some a else articles_lookup articles s := by
  unfold articles_lookup
  rw [List.foldl_append]
  rfl

/-- C4: the ingested price is round(basePrice * (1 + taxRate), 2) for every
record whose two fields convert to numbers, with
computeInclusivePrice 100 0.105 = 110.50 and
computeInclusivePrice 100 0 = 100. -/
theorem claim4_inclusive_price :
    (∀ b t : ℚ, computeInclusivePrice b t = round2 (b * (1 + t))) ∧
    (∀ (l : ℤ) (r : RawPrice) (b t : ℚ),
      floatD0 r.precio_unitario = some b → floatD0 r.iva_tasa = some t →
      convertRecord l r = some ⟨r.sku, l, t, round2 (b * (1 + t))⟩) ∧
    computeInclusivePrice 100 (21 / 200) = 221 / 2 ∧
    computeInclusivePrice 100 0 = 100 := by
  refine ⟨fun b t => rfl, ?_,
    by norm_num [computeInclusivePrice, round2, pyRound],
    by norm_num [computeInclusivePrice, round2, pyRound]⟩
  intro l r b t hb ht
  unfold convertRecord
  rw [hb, ht]
  rfl

/-- C4 witness at basePrice 100, taxRate 0.105. -/
theorem claim4_witness :
    convertRecord 1 ⟨some "A", some (RawVal.num 100), some (RawVal.num (21 / 200))⟩ =
      some ⟨some "A", 1, 21 / 200, round2 (100 * (1 + 21 / 200))⟩ :=
  claim4_inclusive_price.2.1 1
    ⟨some "A", some (RawVal.num 100), some (RawVal.num (21 / 200))⟩
    100 (21 / 200) rfl rfl

/-- Every data row of combine_data has 30 cells. -/
lemma mkRow_length (articles : List Article) (prices : List PriceEntry)
    (s : String) : (mkRow articles prices s).length = 30 :=
  rfl

/-- round(0, 2) = 0. -/
lemma round2_zero : round2 0 = 0 := by
  norm_num [round2, pyRound]

/-- The sku key string of a data row of combine_data. -/
lemma rowKeyStr_mkRow (articles : List Article) (prices : List PriceEntry)
    (s : String) : rowKeyStr (mkRow articles prices s) = s :=
  rfl

/-- C2 witness: a lone INACTIVO record for sku A leaves no row for A even
though a price entry references A. -/
theorem claim2_witness :
    Cell.str "A" ∉ rowKeys (combine_data [] [⟨some "A", 1, 0, 10⟩]) := by
  refine claim2_inactive_excluded
    [PageResp.ok [⟨none, some "A", none, none, none, none, some "Inactivo"⟩],
      PageResp.notFound] [] [⟨some "A", 1, 0, 10⟩] "A" ?_ rfl
  intro items raw hmem hraw hsku
  rcases List.mem_cons.mp hmem with h | h
  · injection h with h
    subst h
    rcases List.mem_singleton.mp hraw with rfl
    decide
  · rcases List.mem_singleton.mp h with h
    cases h

/-- C5: combine_data returns a rectangular table of 30 columns throughout,
with one header row plus one row per distinct active-article sku. -/
theorem claim5_rectangular (articles : List Article) (prices : List PriceEntry) :
    (∀ r ∈ combine_data articles prices, r.length = 30) ∧
    (combine_data articles prices).length = 1 + (articles_keys articles).length := by
  constructor
  · intro r hr
    rcases List.mem_cons.mp hr with h | h
    · subst h; rfl
    · rcases List.mem_map.mp h with ⟨s, _, hs⟩
      rw [← hs]
      exact mkRow_length articles prices s
  · simp only [combine_data, List.length_cons, List.length_map, sortedSkus]
    rw [(List.perm_insertionSort _ _).length_eq]
    omega

/-- C5 witness: the header row of the empty table has 30 cells. -/
theorem claim5_witness : header.length = 30 :=
  (claim5_rectangular [] []).1 header (List.mem_cons_self _ _)

/-- C6: the data rows of combine_data are in strictly ascending lexicographic
sku order, and equal inputs give the identical table (the function is
deterministic). -/
theorem claim6_sorted_deterministic (articles : List Article)
    (prices : List PriceEntry) :
    List.Pairwise (fun r₁ r₂ => rowKeyStr r₁ < rowKeyStr r₂)
      ((combine_data articles prices).tail) ∧
    (∀ (articles2 : List Article) (prices2 : List PriceEntry),
      articles2 = articles → prices2 = prices →
      combine_data articles2 prices2 = combine_data articles prices) := by
  constructor
  · rw [combine_data, List.tail_cons, List.pairwise_map]
    exact pairwise_lt_sortedSkus articles
  · intro articles2 prices2 h1 h2
    rw [h1, h2]

/-- C6 witness at a concrete input. -/
theorem claim6_witness :
    combine_data [⟨none, some "A", none, none, none, none⟩] [] =
      combine_data [⟨none, some "A", none, none, none, none⟩] [] :=
  (claim6_sorted_deterministic [⟨none, some "A", none, none, none, none⟩] []).2
    [⟨none, some "A", none, none, none, none⟩] [] rfl rfl

/-- C7: the tax display cell (column index 5) of a data row is the price-list
1 tax rate as a one-decimal percentage with a comma separator when that
entry exists, and the empty string otherwise; in particular a rate of 0.105
renders as "10,5" and 0.21 as "21,0". -/
theorem claim7_tax_display (articles : List Article) (prices : List PriceEntry)
    (s : String) :
    (∀ p, prices_lookup prices s 1 = some p →
      (mkRow articles prices s)[5]? = some (Cell.str (ivaDisplay p.iva_tasa))) ∧
    (prices_lookup prices s 1 = none →
      (mkRow articles prices s)[5]? = some (Cell.str "")) ∧
    ivaDisplay (21 / 200) = "10,5" ∧ ivaDisplay (21 / 100) = "21,0" := by
  refine ⟨?_, ?_, ?_, ?_⟩
  · intro p hp
    simp only [mkRow, hp]
    rfl
  · intro hp
    simp only [mkRow, hp]
    rfl
  · have h : pyRound ((21 : ℚ) / 200 * 100 * 10) = 105 := by norm_num [pyRound]
    rw [ivaDisplay, h]
    decide
  · have h : pyRound ((21 : ℚ) / 100 * 100 * 10) = 210 := by norm_num [pyRound]
    rw [ivaDisplay, h]
    decide

/-- C7 witness: with a price-list 1 entry of rate 0.105 for sku A, the sixth
cell of the row is its display string. -/
theorem claim7_witness :
    (mkRow [] [⟨some "A", 1, 21 / 200, 100⟩] "A")[5]? =
      some (Cell.str (ivaDisplay (21 / 200))) :=
  (claim7_tax_display [] [⟨some "A", 1, 21 / 200, 100⟩] "A").1
    ⟨some "A", 1, 21 / 200, 100⟩ rfl

/-- C8, code-bug evidence. During the catalog fetch every request error
other than the exhaustion signal aborts the run, as the claim says. During
the price fetch the claimed list-scoped recovery only happens for a request
error that carries an HTTP response: the list's pages are truncated, its
collected entries kept, and the outer loop moves to the next list id. A
request error with no response object (connection failure, timeout) instead
raises AttributeError out of the handler and aborts the whole fetch: at the
failing input (list 1's first page raising a response-less error, list 2
having a good record), get_prices returns an error and no entries, while
with a 500-response error in the same position it returns list 2's entry. -/
theorem claim8_error_scoping :
    (∀ (pre rest : List (PageResp RawArticle)),
      (∀ p ∈ pre, ∃ items, p = PageResp.ok items ∧ items ≠ []) →
      get_articles (pre ++ PageResp.errNoResp :: rest) = Except.error () ∧
      ∀ s : ℕ, s ≠ 404 →
        get_articles (pre ++ PageResp.errResp s :: rest) = Except.error ()) ∧
    (∀ (l : ℤ) (s : ℕ) (pages more : List (PageResp RawPrice)),
      get_prices_list l (pages ++ PageResp.errResp s :: more) =
        get_prices_list l pages) ∧
    (∀ (l : ℤ) (ls : List ℤ) (server : ℤ → List (PageResp RawPrice))
      (entries : List PriceEntry),
      get_prices_list l (server l) = Except.ok entries →
      get_prices (l :: ls) server =
        Except.map (fun more => entries ++ more) (get_prices ls server)) ∧
    (∀ (l : ℤ) (pages more : List (PageResp RawPrice)),
      (∀ p ∈ pages, ∃ items, p = PageResp.ok items ∧ items ≠ []) →
      get_prices_list l (pages ++ PageResp.errNoResp :: more) = Except.error ()) ∧
    (∀ (l : ℤ) (ls : List ℤ) (server : ℤ → List (PageResp RawPrice)),
      get_prices_list l (server l) = Except.error () →
      get_prices (l :: ls) server = Except.error ()) ∧
    get_prices [1, 2]
      (fun l => if l = 1 then [PageResp.errNoResp]
        else [PageResp.ok [⟨some "B", some (RawVal.num 10), some (RawVal.num 0)⟩],
          PageResp.notFound]) = Except.error () ∧
    get_prices [1, 2]
      (fun l => if l = 1 then [PageResp.errResp 500]
        else [PageResp.ok [⟨some "B", some (RawVal.num 10), some (RawVal.num 0)⟩],
          PageResp.notFound]) =
      Except.ok [⟨some "B", 2, 0, computeInclusivePrice 10 0⟩] := by
  refine ⟨?_, get_prices_list_errResp, ?_, get_prices_list_fatal, ?_, ?_, ?_⟩
  · intro pre rest hpre
    refine ⟨get_articles_fatal PageResp.errNoResp (fun _ => rfl) pre rest hpre, ?_⟩
    intro s hs
    exact get_articles_fatal (PageResp.errResp s)
      (fun _ => by simp [get_articles, hs]) pre rest hpre
  · intro l ls server entries h
    have hstep : get_prices (l :: ls) server =
        match get_prices ls server with
        | Except.error e => Except.error e
        | Except.ok more => Except.ok (entries ++ more) := by
      show (match get_prices_list l (server l) with
        | Except.error e => Except.error e
        | Except.ok es =>
          match get_prices ls server with
          | Except.error e => Except.error e
          | Except.ok more => Except.ok (es ++ more)) =
        match get_prices ls server with
        | Except.error e => Except.error e
        | Except.ok more => Except.ok (entries ++ more)
      rw [h]
    rw [hstep]
    cases hrec : get_prices ls server <;> simp [Except.map]
  · intro l ls server h
    unfold get_prices
    rw [h]
  · rfl
  · rfl

/-- C8 witness: a response-less error after one good article page aborts the
catalog fetch; a 500-response error after one good price page truncates only
that list's pages; a response-less error on list 1 aborts the whole price
fetch even though list 2 has data. -/
theorem claim8_witness :
    get_articles
      [PageResp.ok [⟨none, some "A", none, none, none, none, none⟩],
        PageResp.errNoResp] = Except.error () ∧
    get_prices_list 1
      ([PageResp.ok [⟨some "A", some (RawVal.num 10), some (RawVal.num 0)⟩]] ++
        PageResp.errResp 500 ::
          [PageResp.ok [⟨some "B", some (RawVal.num 20), some (RawVal.num 0)⟩]]) =
      get_prices_list 1
        [PageResp.ok [⟨some "A", some (RawVal.num 10), some (RawVal.num 0)⟩]] ∧
    get_prices_list 3 ([] ++ PageResp.errNoResp :: []) = Except.error () := by
  refine ⟨(claim8_error_scoping.1
      [PageResp.ok [⟨none, some "A", none, none, none, none, none⟩]] [] ?_).1,
    claim8_error_scoping.2.1 1 500
      [PageResp.ok [⟨some "A", some (RawVal.num 10), some (RawVal.num 0)⟩]]
      [PageResp.ok [⟨some "B", some (RawVal.num 20), some (RawVal.num 0)⟩]],
    claim8_error_scoping.2.2.2.1 3 [] [] (by intro p hp; cases hp)⟩
  intro p hp
  rcases List.mem_singleton.mp hp with rfl
  exact ⟨_, rfl, by simp⟩

/-- C9: a record whose base price or tax rate fails float conversion is
skipped on its own: the rest of the page is processed unchanged and the page
loop of the list carries on. -/
theorem claim9_record_skip (l : ℤ) (xs ys : List RawPrice) (r : RawPrice)
    (h : floatD0 r.precio_unitario = none ∨ floatD0 r.iva_tasa = none) :
    convertRecord l r = none ∧
    processPage l (xs ++ r :: ys) = processPage l xs ++ processPage l ys ∧
    ∀ rest, get_prices_list l (PageResp.ok (xs ++ r :: ys) :: rest) =
      Except.map (fun more => (processPage l xs ++ processPage l ys) ++ more)
        (get_prices_list l rest) := by
  have hc : convertRecord l r = none := by
    cases hpu : floatD0 r.precio_unitario <;>
      cases hiv : floatD0 r.iva_tasa <;>
      simp_all [convertRecord]
  have hskip := processPage_skip l xs ys r hc
  refine ⟨hc, hskip, ?_⟩
  intro rest
  have hne : xs ++ r :: ys ≠ [] := by simp
  cases hrec : get_prices_list l rest with
  | ok more => simp only [get_prices_list, if_neg hne, hrec, hskip, Except.map]
  | error e => simp only [get_prices_list, if_neg hne, hrec, Except.map]

/-- C9 witness: a non-numeric record between two good ones. -/
theorem claim9_witness :
    processPage 1
      ([⟨some "A", some (RawVal.num 10), some (RawVal.num 0)⟩] ++
        (⟨some "B", some RawVal.bad, some (RawVal.num 0)⟩ : RawPrice) ::
          [⟨some "C", some (RawVal.num 20), some (RawVal.num 0)⟩]) =
      processPage 1 [⟨some "A", some (RawVal.num 10), some (RawVal.num 0)⟩] ++
        processPage 1 [⟨some "C", some (RawVal.num 20), some (RawVal.num 0)⟩] :=
  (claim9_record_skip 1 [⟨some "A", some (RawVal.num 10), some (RawVal.num 0)⟩]
    [⟨some "C", some (RawVal.num 20), some (RawVal.num 0)⟩]
    ⟨some "B", some RawVal.bad, some (RawVal.num 0)⟩ (Or.inl rfl)).2.1

/-- C10: an absent base price or tax rate field does not skip the record:
the missing field defaults to 0, the entry is emitted with price
round(0 * (1 + t), 2) (respectively tax rate 0), and a stored price of 0 is
rendered as the number 0, not an empty cell. -/
theorem claim10_missing_field_defaults (l : ℤ) (r : RawPrice) :
    (r.precio_unitario = none → ∀ t, floatD0 r.iva_tasa = some t →
      convertRecord l r = some ⟨r.sku, l, t, computeInclusivePrice 0 t⟩) ∧
    (r.iva_tasa = none → ∀ b, floatD0 r.precio_unitario = some b →
      convertRecord l r = some ⟨r.sku, l, 0, computeInclusivePrice b 0⟩) ∧
    (∀ t : ℚ, computeInclusivePrice 0 t = 0) ∧
    (∀ (articles : List Article) (prices : List PriceEntry) (s : String)
      (p : PriceEntry), prices_lookup prices s 1 = some p →
      p.precio_unitario = 0 →
      (mkRow articles prices s)[6]? = some (Cell.num 0) ∧
        Cell.num 0 ≠ Cell.str "") := by
  have hzero : ∀ t : ℚ, computeInclusivePrice 0 t = 0 := by
    intro t
    have : (0 : ℚ) * (1 + t) = 0 := by ring
    rw [computeInclusivePrice, this]
    exact round2_zero
  refine ⟨?_, ?_, hzero, ?_⟩
  · intro hpu t hiv
    unfold convertRecord
    rw [hpu, hiv]
    rfl
  · intro hiv b hpu
    unfold convertRecord
    rw [hpu, hiv]
    rfl
  · intro articles prices s p hp hpz
    constructor
    · have h6 : (mkRow articles prices s)[6]? =
          some (match prices_lookup prices s 1 with
            | some q => Cell.num (round2 q.precio_unitario)
            | none => Cell.str "") := rfl
      rw [h6, hp]
      show some (Cell.num (round2 p.precio_unitario)) = some (Cell.num 0)
      rw [hpz, round2_zero]
    · decide

/-- C10 witness: a record with no precio_unitario key and rate 0.5 becomes
an entry priced 0, and a stored 0 price shows as the number 0 in the row. -/
theorem claim10_witness :
    convertRecord 3 ⟨some "C", none, some (RawVal.num (1 / 2))⟩ =
      some ⟨some "C", 3, 1 / 2, computeInclusivePrice 0 (1 / 2)⟩ ∧
    (mkRow [] [⟨some "A", 1, 1 / 2, 0⟩] "A")[6]? = some (Cell.num 0) :=
  ⟨(claim10_missing_field_defaults 3 ⟨some "C", none, some (RawVal.num (1 / 2))⟩).1
      rfl (1 / 2) rfl,
    ((claim10_missing_field_defaults 1 ⟨some "A", none, none⟩).2.2.2
      [] [⟨some "A", 1, 1 / 2, 0⟩] "A" ⟨some "A", 1, 1 / 2, 0⟩ rfl rfl).1⟩

end Caddis
